import Mathlib

/-!
# Verification of cppsqlite, a C++ wrapper over the sqlite3 engine

The repository contains two revisions of the same header:

* `src/headers/cppsqlite.h` — the main revision, C++ namespace `sqlite`,
  embedded below in the Lean namespace `sqlite`;
* `src/cppsqlite/headers/cppsqlite.h` — an older revision whose `bind`
  overloads differ, embedded in the Lean namespace `sqliteOld`.

The wrapper classes own native sqlite3 handles and forward every operation
to a native call.  The native engine is external to the repository, so each
wrapper operation is embedded as a pure function that takes the *outcome*
of the native call it performs (the status code and, where the wrapper
queries it, the diagnostic message or the column data) as an explicit
argument.  The function returns three things, mirroring the C++:

* the control-flow result (`OpResult`): a normal return value, a thrown
  `SqlException`, or a failed `assert`;
* the wrapper object after the call (the C++ member `m_db` / `m_stmt`);
* the ordered list of native calls the wrapper issued (`NativeCall`),
  including the `sqlite3_close` / `sqlite3_finalize` calls made by the
  `std::unique_ptr` deleters, so that resource-release behaviour is visible.

Native handles are modelled as numeric identifiers; a `nullptr` member is
`Option.none`.  A `std::unique_ptr` deleter fires only when its pointer is
non-null, which is why release events carry a bare `Handle`.
-/

/-- `SQLITE_OK` from sqlite3.h: successful result. -/
def SQLITE_OK : Int := 0

/-- `SQLITE_ROW` from sqlite3.h: `sqlite3_step` has another row ready. -/
def SQLITE_ROW : Int := 100

/-- `SQLITE_DONE` from sqlite3.h: `sqlite3_step` has finished executing. -/
def SQLITE_DONE : Int := 101

/-- A native sqlite3 resource handle (a non-null `sqlite3*` or
`sqlite3_stmt*`), modelled as a numeric identifier.  A nullable pointer is
`Option Handle`. -/
abbrev Handle := Nat

/-- The native sqlite3 calls the wrapper issues, in the order it issues
them.  `closeDb` and `finalizeStmt` are the `unique_ptr` deleters
(`sqlite3_close` / `sqlite3_finalize`); they only fire on a non-null
pointer.  `errmsgDb h` is `sqlite3_errmsg(h)` on a database pointer;
`errmsgStmtDb h` is `sqlite3_errmsg(sqlite3_db_handle(h))`, the diagnostic
of the session owning statement `h`. -/
inductive NativeCall where
  | openDb (fileName : String)
  | closeDb (h : Handle)
  | errmsgDb (db : Option Handle)
  | errmsgStmtDb (stmt : Option Handle)
  | execDb (db : Option Handle) (sql : String)
  | lastInsertRowid (db : Option Handle)
  | prepareV2 (db : Option Handle) (sql : String)
  | finalizeStmt (h : Handle)
  | bindInt (stmt : Option Handle) (index : Int) (value : Int)
  | bindInt64 (stmt : Option Handle) (index : Int) (value : Int)
  | bindText (stmt : Option Handle) (index : Int) (value : String)
  | stepStmt (stmt : Option Handle)
  | resetStmt (stmt : Option Handle)
  | columnInt (stmt : Option Handle) (column : Int)
  | columnInt64 (stmt : Option Handle) (column : Int)
  | columnText (stmt : Option Handle) (column : Int)
  | columnBytes (stmt : Option Handle) (column : Int)
  | columnBlob (stmt : Option Handle) (column : Int)
deriving Repr, DecidableEq

/-- `struct SqlException` of src/headers/cppsqlite.h: a sqlite error code
together with the diagnostic message captured at the moment of failure. -/
structure SqlException where
  errorCode : Int
  errorMessage : String
deriving Repr, DecidableEq

/-- Control-flow result of one wrapper operation: a normal return, a thrown
`SqlException`, or a violated `assert` (the C++ `assert(m_db)` /
`assert(m_stmt)` preconditions). -/
inductive OpResult (α : Type) where
  | ok (value : α)
  | thrown (e : SqlException)
  | assertFailed
deriving Repr, DecidableEq

/-- Outcome of one fallible native call: the status it returned and what
`sqlite3_errmsg` on the relevant session would report right after it. -/
structure NativeStatus where
  status : Int
  errMsg : String
deriving Repr, DecidableEq

/-- Outcome of the native `sqlite3_open` call: its status, the raw
`sqlite3*` it stored through the out parameter (possibly null), and what
`sqlite3_errmsg` on that raw handle reports. -/
structure OpenOutcome where
  status : Int
  rawConnection : Option Handle
  errMsg : String
deriving Repr, DecidableEq

/-- Outcome of the native `sqlite3_prepare_v2` call: its status, the raw
`sqlite3_stmt*` it stored through the out parameter (possibly null), and
what `sqlite3_errmsg` on the *connection's* session reports. -/
structure PrepareOutcome where
  status : Int
  rawStmt : Option Handle
  connErrMsg : String
deriving Repr, DecidableEq

namespace sqlite

/-- `class Connection` of src/headers/cppsqlite.h: owns
`std::unique_ptr<sqlite3, int(*)(sqlite3*)> m_db`, null before a
successful `open`. -/
structure Connection where
  m_db : Option Handle
deriving Repr, DecidableEq

/-- `Connection::open(fileName)`:
evaluates `sqlite3_open`, wraps the raw handle in a local `unique_ptr`,
throws `SqlException(result, sqlite3_errmsg(localHandle.get()))` when the
status is not `SQLITE_OK` (the local `unique_ptr` closes the raw handle
during unwinding), and otherwise move-assigns the local handle into
`m_db` (closing any previously owned handle). -/
def Connection.«open» (conn : Connection) (fileName : String) (o : OpenOutcome) :
    OpResult Unit × Connection × List NativeCall :=
  if o.status ≠ SQLITE_OK then
    (OpResult.thrown ⟨o.status, o.errMsg⟩, conn,
      [NativeCall.openDb fileName, NativeCall.errmsgDb o.rawConnection]
        ++ (o.rawConnection.map NativeCall.closeDb).toList)
  else
    (OpResult.ok (), { m_db := o.rawConnection },
      [NativeCall.openDb fileName]
        ++ (conn.m_db.map NativeCall.closeDb).toList)

/-- `Connection::createInMemory()`: forwards to `open(":memory:")`. -/
def Connection.createInMemory (conn : Connection) (o : OpenOutcome) :
    OpResult Unit × Connection × List NativeCall :=
  Connection.«open» conn ":memory:" o

/-- `Connection::execute(statement)`: `assert(m_db)`, then `sqlite3_exec`,
throwing `SqlException(result, sqlite3_errmsg(m_db.get()))` on a
non-`SQLITE_OK` status. -/
def Connection.execute (conn : Connection) (statement : String) (o : NativeStatus) :
    OpResult Unit × Connection × List NativeCall :=
  match conn.m_db with
  | none => (OpResult.assertFailed, conn, [])
  | some h =>
    if o.status ≠ SQLITE_OK then
      (OpResult.thrown ⟨o.status, o.errMsg⟩, conn,
        [NativeCall.execDb (some h) statement, NativeCall.errmsgDb (some h)])
    else
      (OpResult.ok (), conn, [NativeCall.execDb (some h) statement])

/-- `Connection::lastRowId()`: calls
`sqlite3_last_insert_rowid(m_db.get())` with no precondition check; the
member pointer (null or not) is handed straight to the native call.
`rowid` is the value the native call returns. -/
def Connection.lastRowId (conn : Connection) (rowid : Int) :
    OpResult Int × Connection × List NativeCall :=
  (OpResult.ok rowid, conn, [NativeCall.lastInsertRowid conn.m_db])

/-- `Connection::beginTransaction()`: forwards to `execute("BEGIN")`. -/
def Connection.beginTransaction (conn : Connection) (o : NativeStatus) :
    OpResult Unit × Connection × List NativeCall :=
  Connection.execute conn "BEGIN" o

/-- `Connection::rollbackTransaction()`: forwards to `execute("ROLLBACK")`. -/
def Connection.rollbackTransaction (conn : Connection) (o : NativeStatus) :
    OpResult Unit × Connection × List NativeCall :=
  Connection.execute conn "ROLLBACK" o

/-- `Connection::commitTransaction()`: forwards to `execute("COMMIT")`. -/
def Connection.commitTransaction (conn : Connection) (o : NativeStatus) :
    OpResult Unit × Connection × List NativeCall :=
  Connection.execute conn "COMMIT" o

/-- `class Statement` of src/headers/cppsqlite.h: owns
`std::unique_ptr<sqlite3_stmt, int(*)(sqlite3_stmt*)> m_stmt`, null
before a successful `prepare`. -/
structure Statement where
  m_stmt : Option Handle
deriving Repr, DecidableEq

/-- `Statement::prepare(connection, statement)`:
evaluates `sqlite3_prepare_v2(connection.ptr(), ...)`, wraps the raw
statement in a local `unique_ptr`, throws
`SqlException(result, sqlite3_errmsg(connection.ptr()))` when the status
is not `SQLITE_OK` (the local `unique_ptr` finalizes the raw statement
during unwinding), and otherwise move-assigns the local handle into
`m_stmt` (finalizing any previously owned statement). -/
def Statement.prepare (stmt : Statement) (conn : Connection) (statement : String)
    (o : PrepareOutcome) : OpResult Unit × Statement × List NativeCall :=
  if o.status ≠ SQLITE_OK then
    (OpResult.thrown ⟨o.status, o.connErrMsg⟩, stmt,
      [NativeCall.prepareV2 conn.m_db statement, NativeCall.errmsgDb conn.m_db]
        ++ (o.rawStmt.map NativeCall.finalizeStmt).toList)
  else
    (OpResult.ok (), { m_stmt := o.rawStmt },
      [NativeCall.prepareV2 conn.m_db statement]
        ++ (stmt.m_stmt.map NativeCall.finalizeStmt).toList)

/-- `Statement::bind(int index, const int value)`:
`assert(m_stmt)`, then `++index` (the revision comments: sqlite uses
1-based indexing for bind, the wrapper exposes 0-based), then
`sqlite3_bind_int`, throwing
`SqlException(result, sqlite3_errmsg(sqlite3_db_handle(m_stmt.get())))`
on a non-`SQLITE_OK` status. -/
def Statement.bindInt (stmt : Statement) (index : Int) (value : Int)
    (o : NativeStatus) : OpResult Unit × Statement × List NativeCall :=
  match stmt.m_stmt with
  | none => (OpResult.assertFailed, stmt, [])
  | some h =>
    if o.status ≠ SQLITE_OK then
      (OpResult.thrown ⟨o.status, o.errMsg⟩, stmt,
        [NativeCall.bindInt (some h) (index + 1) value,
         NativeCall.errmsgStmtDb (some h)])
    else
      (OpResult.ok (), stmt, [NativeCall.bindInt (some h) (index + 1) value])

/-- `Statement::bind(int index, const long long int value)`: as `bindInt`
but through `sqlite3_bind_int64`, with the same `++index` translation. -/
def Statement.bindInt64 (stmt : Statement) (index : Int) (value : Int)
    (o : NativeStatus) : OpResult Unit × Statement × List NativeCall :=
  match stmt.m_stmt with
  | none => (OpResult.assertFailed, stmt, [])
  | some h =>
    if o.status ≠ SQLITE_OK then
      (OpResult.thrown ⟨o.status, o.errMsg⟩, stmt,
        [NativeCall.bindInt64 (some h) (index + 1) value,
         NativeCall.errmsgStmtDb (some h)])
    else
      (OpResult.ok (), stmt, [NativeCall.bindInt64 (some h) (index + 1) value])

/-- `Statement::bind(int index, const std::string& value)`: as `bindInt`
but through `sqlite3_bind_text(..., SQLITE_TRANSIENT)`, with the same
`++index` translation. -/
def Statement.bindText (stmt : Statement) (index : Int) (value : String)
    (o : NativeStatus) : OpResult Unit × Statement × List NativeCall :=
  match stmt.m_stmt with
  | none => (OpResult.assertFailed, stmt, [])
  | some h =>
    if o.status ≠ SQLITE_OK then
      (OpResult.thrown ⟨o.status, o.errMsg⟩, stmt,
        [NativeCall.bindText (some h) (index + 1) value,
         NativeCall.errmsgStmtDb (some h)])
    else
      (OpResult.ok (), stmt, [NativeCall.bindText (some h) (index + 1) value])

/-- `Statement::step()`: `assert(m_stmt)`, then `sqlite3_step`; returns
`true` on `SQLITE_ROW`, `false` on `SQLITE_DONE`, and otherwise throws
`SqlException(result, sqlite3_errmsg(sqlite3_db_handle(m_stmt.get())))`. -/
def Statement.step (stmt : Statement) (o : NativeStatus) :
    OpResult Bool × Statement × List NativeCall :=
  match stmt.m_stmt with
  | none => (OpResult.assertFailed, stmt, [])
  | some h =>
    if o.status = SQLITE_ROW then
      (OpResult.ok true, stmt, [NativeCall.stepStmt (some h)])
    else if o.status = SQLITE_DONE then
      (OpResult.ok false, stmt, [NativeCall.stepStmt (some h)])
    else
      (OpResult.thrown ⟨o.status, o.errMsg⟩, stmt,
        [NativeCall.stepStmt (some h), NativeCall.errmsgStmtDb (some h)])

/-- `Statement::reset()`: calls `sqlite3_reset(m_stmt.get())` with no
precondition check (the member pointer, null or not, is handed straight
to the native call), throwing on a non-`SQLITE_OK` status. -/
def Statement.reset (stmt : Statement) (o : NativeStatus) :
    OpResult Unit × Statement × List NativeCall :=
  if o.status ≠ SQLITE_OK then
    (OpResult.thrown ⟨o.status, o.errMsg⟩, stmt,
      [NativeCall.resetStmt stmt.m_stmt, NativeCall.errmsgStmtDb stmt.m_stmt])
  else
    (OpResult.ok (), stmt, [NativeCall.resetStmt stmt.m_stmt])

/-- `Statement::getInt(column)`: returns
`sqlite3_column_int(m_stmt.get(), column)`; `value` is what the native
call returns. -/
def Statement.getInt (stmt : Statement) (column : Int) (value : Int) :
    OpResult Int × Statement × List NativeCall :=
  (OpResult.ok value, stmt, [NativeCall.columnInt stmt.m_stmt column])

/-- `Statement::getInt64(column)`: returns
`sqlite3_column_int64(m_stmt.get(), column)`. -/
def Statement.getInt64 (stmt : Statement) (column : Int) (value : Int) :
    OpResult Int × Statement × List NativeCall :=
  (OpResult.ok value, stmt, [NativeCall.columnInt64 stmt.m_stmt column])

/-- `Statement::getString(column)`: reads the `const char*` from
`sqlite3_column_text`; `str ? str : std::string()` — a null pointer
(`strPtr = none`) yields the empty string without dereferencing. -/
def Statement.getString (stmt : Statement) (column : Int) (strPtr : Option String) :
    OpResult String × Statement × List NativeCall :=
  (OpResult.ok (match strPtr with | some s => s | none => ""), stmt,
    [NativeCall.columnText stmt.m_stmt column])

/-- `Statement::getBlob(column)`: first reads
`dataSize = sqlite3_column_bytes(...)` (a non-negative byte count), then
reads the byte pointer from `sqlite3_column_blob`, in that order;
`data ? std::string(data, dataSize) : std::string()` — a non-null pointer
(modelled as the byte at each offset) yields its first `dataSize` bytes, a
null pointer yields the empty byte sequence. -/
def Statement.getBlob (stmt : Statement) (column : Int) (dataSize : Nat)
    (dataPtr : Option (Nat → Nat)) :
    OpResult (List Nat) × Statement × List NativeCall :=
  (OpResult.ok (match dataPtr with
      | some data => (List.range dataSize).map data
      | none => []),
   stmt,
   [NativeCall.columnBytes stmt.m_stmt column,
    NativeCall.columnBlob stmt.m_stmt column])

end sqlite

namespace sqliteOld

/-- `class Statement` of the older revision
src/cppsqlite/headers/cppsqlite.h; same owned member `m_stmt`. -/
structure Statement where
  m_stmt : Option Handle
deriving Repr, DecidableEq

/-- `Statement::bind(const int index, const int value)` of the older
revision: `assert(m_stmt)`, then `sqlite3_bind_int(m_stmt.get(), index,
value)` — the caller's index is passed to the native call unchanged (this
revision has no `++index` translation and no 64-bit overload). -/
def Statement.bindInt (stmt : Statement) (index : Int) (value : Int)
    (o : NativeStatus) : OpResult Unit × Statement × List NativeCall :=
  match stmt.m_stmt with
  | none => (OpResult.assertFailed, stmt, [])
  | some h =>
    if o.status ≠ SQLITE_OK then
      (OpResult.thrown ⟨o.status, o.errMsg⟩, stmt,
        [NativeCall.bindInt (some h) index value,
         NativeCall.errmsgStmtDb (some h)])
    else
      (OpResult.ok (), stmt, [NativeCall.bindInt (some h) index value])

/-- `Statement::bind(const int index, const std::string& value)` of the
older revision: as its `bindInt`, through `sqlite3_bind_text`, again with
the caller's index passed to the native call unchanged. -/
def Statement.bindText (stmt : Statement) (index : Int) (value : String)
    (o : NativeStatus) : OpResult Unit × Statement × List NativeCall :=
  match stmt.m_stmt with
  | none => (OpResult.assertFailed, stmt, [])
  | some h =>
    if o.status ≠ SQLITE_OK then
      (OpResult.thrown ⟨o.status, o.errMsg⟩, stmt,
        [NativeCall.bindText (some h) index value,
         NativeCall.errmsgStmtDb (some h)])
    else
      (OpResult.ok (), stmt, [NativeCall.bindText (some h) index value])

end sqliteOld

/-- Claim C1, counterexample: in the older revision
src/cppsqlite/headers/cppsqlite.h, `bind` passes the caller's index to the
native bind call unchanged — binding an int at zero-based index 0 on a
prepared statement issues a native bind at index 0, and no native bind at
one-based index 1 is issued, so binding at zero-based index 0 does not
reach the engine's one-based parameter 1. -/
theorem bindOld_index_zero_not_translated :
    (sqliteOld.Statement.bindInt ⟨some 1⟩ 0 7 ⟨0, "m"⟩).2.2 =
      [NativeCall.bindInt (some 1) 0 7] ∧
    NativeCall.bindInt (some 1) 1 7 ∉
      (sqliteOld.Statement.bindInt ⟨some 1⟩ 0 7 ⟨0, "m"⟩).2.2 := by
  decide

/-- Claim C1, amended: in src/headers/cppsqlite.h every `bind` overload
(int, 64-bit int, text) on a prepared statement issues its native bind at
the one-based index `index + 1`, so zero-based index 0 reaches native
parameter 1; in the older revision src/cppsqlite/headers/cppsqlite.h the
two `bind` overloads (int, text — there is no 64-bit overload) issue the
native bind at the caller's index unchanged. -/
theorem bind_index_translation (h : Handle) (i v : Int) (s : String)
    (o : NativeStatus) :
    (sqlite.Statement.bindInt ⟨some h⟩ i v o).2.2.head? =
      some (NativeCall.bindInt (some h) (i + 1) v) ∧
    (sqlite.Statement.bindInt64 ⟨some h⟩ i v o).2.2.head? =
      some (NativeCall.bindInt64 (some h) (i + 1) v) ∧
    (sqlite.Statement.bindText ⟨some h⟩ i s o).2.2.head? =
      some (NativeCall.bindText (some h) (i + 1) s) ∧
    (sqliteOld.Statement.bindInt ⟨some h⟩ i v o).2.2.head? =
      some (NativeCall.bindInt (some h) i v) ∧
    (sqliteOld.Statement.bindText ⟨some h⟩ i s o).2.2.head? =
      some (NativeCall.bindText (some h) i s) := by
  refine ⟨?_, ?_, ?_, ?_, ?_⟩ <;>
    simp only [sqlite.Statement.bindInt, sqlite.Statement.bindInt64,
      sqlite.Statement.bindText, sqliteOld.Statement.bindInt,
      sqliteOld.Statement.bindText] <;>
    split <;> rfl

/-- Claim C2: on a prepared statement, `step()` returns true exactly when
the native step reports `SQLITE_ROW`, returns false exactly when it
reports `SQLITE_DONE`, and on any other native status throws a
`SqlException` carrying that status and the session's diagnostic message
(it never returns normally in that case). -/
theorem step_row_done_error (h : Handle) (o : NativeStatus) :
    ((sqlite.Statement.step ⟨some h⟩ o).1 = OpResult.ok true ↔
      o.status = SQLITE_ROW) ∧
    ((sqlite.Statement.step ⟨some h⟩ o).1 = OpResult.ok false ↔
      o.status = SQLITE_DONE) ∧
    (o.status ≠ SQLITE_ROW → o.status ≠ SQLITE_DONE →
      (sqlite.Statement.step ⟨some h⟩ o).1 =
        OpResult.thrown ⟨o.status, o.errMsg⟩) := by
  by_cases hrow : o.status = SQLITE_ROW
  · simp [sqlite.Statement.step, hrow, SQLITE_ROW, SQLITE_DONE]
  · by_cases hdone : o.status = SQLITE_DONE
    · simp [sqlite.Statement.step, hrow, hdone, SQLITE_ROW, SQLITE_DONE]
    · simp [sqlite.Statement.step, hrow, hdone]

/-- Witness for claim C2 at a concrete prepared statement and a concrete
error status (7 is neither `SQLITE_ROW` nor `SQLITE_DONE`). -/
theorem step_row_done_error_witness :
    (sqlite.Statement.step ⟨some 1⟩ ⟨7, "boom"⟩).1 =
      OpResult.thrown ⟨7, "boom"⟩ :=
  (step_row_done_error 1 ⟨7, "boom"⟩).2.2 (by decide) (by decide)

/-- Claim C3, counterexample: a `Connection` that already holds an open
handle (here handle 5) and suffers a failed `open` (native status 1, raw
handle 7) throws, but its handle is still the previous handle 5 — it is
not left absent as the claim states for every Connection. -/
theorem open_failure_keeps_previous_handle :
    (sqlite.Connection.«open» ⟨some 5⟩ "db" ⟨1, some 7, "e"⟩).1 =
      OpResult.thrown ⟨1, "e"⟩ ∧
    (sqlite.Connection.«open» ⟨some 5⟩ "db" ⟨1, some 7, "e"⟩).2.1.m_db =
      some 5 ∧
    ¬ (sqlite.Connection.«open» ⟨some 5⟩ "db" ⟨1, some 7, "e"⟩).2.1.m_db =
      none := by
  decide

/-- Claim C3, amended: when the native open reports non-success,
`Connection::open` throws the failure and leaves the member handle exactly
as it was before the call — so a Connection whose handle was absent stays
absent with no partial state retained, while a Connection that already
held an open handle keeps that previous handle; a subsequent successful
open on the same instance then succeeds normally, installing the newly
opened handle. -/
theorem open_failure_state (conn : sqlite.Connection) (f g : String)
    (o o' : OpenOutcome) (hfail : o.status ≠ SQLITE_OK)
    (hok : o'.status = SQLITE_OK) :
    (sqlite.Connection.«open» conn f o).1 =
      OpResult.thrown ⟨o.status, o.errMsg⟩ ∧
    (sqlite.Connection.«open» conn f o).2.1 = conn ∧
    (conn.m_db = none → (sqlite.Connection.«open» conn f o).2.1.m_db = none) ∧
    (sqlite.Connection.«open» (sqlite.Connection.«open» conn f o).2.1 g o').1 =
      OpResult.ok () ∧
    (sqlite.Connection.«open» (sqlite.Connection.«open» conn f o).2.1 g o').2.1.m_db =
      o'.rawConnection := by
  refine ⟨?_, ?_, ?_, ?_, ?_⟩ <;>
    simp [sqlite.Connection.«open», hfail, hok]

/-- Witness for claim C3 (amended) at a concrete fresh Connection: the
first open fails with status 1, the second succeeds with status
`SQLITE_OK` and raw handle 9. -/
theorem open_failure_state_witness :
    (sqlite.Connection.«open» ⟨none⟩ "a" ⟨1, none, "e"⟩).2.1 =
      (⟨none⟩ : sqlite.Connection) :=
  (open_failure_state ⟨none⟩ "a" "b" ⟨1, none, "e"⟩ ⟨SQLITE_OK, some 9, ""⟩
    (by decide) rfl).2.1

/-- Claim C4: when the native prepare reports non-success,
`Statement::prepare` finalizes the partially-compiled raw statement
exactly once (when one was produced) and throws a `SqlException` whose
message was retrieved by `sqlite3_errmsg` on the connection's session;
when it succeeds, the previously-held compiled handle (when there was
one) is finalized and the member is replaced by the new raw statement. -/
theorem prepare_failure_and_success (stmt : sqlite.Statement)
    (conn : sqlite.Connection) (s : String) (o : PrepareOutcome) :
    (o.status ≠ SQLITE_OK →
      (sqlite.Statement.prepare stmt conn s o).1 =
        OpResult.thrown ⟨o.status, o.connErrMsg⟩ ∧
      (∀ h, o.rawStmt = some h →
        ((sqlite.Statement.prepare stmt conn s o).2.2.count
          (NativeCall.finalizeStmt h)) = 1) ∧
      NativeCall.errmsgDb conn.m_db ∈
        (sqlite.Statement.prepare stmt conn s o).2.2) ∧
    (o.status = SQLITE_OK →
      (sqlite.Statement.prepare stmt conn s o).1 = OpResult.ok () ∧
      (sqlite.Statement.prepare stmt conn s o).2.1.m_stmt = o.rawStmt ∧
      (∀ h, stmt.m_stmt = some h →
        NativeCall.finalizeStmt h ∈
          (sqlite.Statement.prepare stmt conn s o).2.2)) := by
  constructor
  · intro hfail
    refine ⟨?_, ?_, ?_⟩ <;>
      simp [sqlite.Statement.prepare, hfail]
    intro h hh
    simp [hh, List.count_cons, List.count_singleton]
  · intro hok
    refine ⟨?_, ?_, ?_⟩ <;>
      simp [sqlite.Statement.prepare, hok]

/-- Witness for claim C4 at concrete inputs: a failing prepare (status 1,
raw statement 3) on a statement holding handle 2, discharging the failure
branch at that input. -/
theorem prepare_failure_and_success_witness :
    (sqlite.Statement.prepare ⟨some 2⟩ ⟨some 1⟩ "sql" ⟨1, some 3, "e"⟩).1 =
      OpResult.thrown ⟨1, "e"⟩ :=
  ((prepare_failure_and_success ⟨some 2⟩ ⟨some 1⟩ "sql" ⟨1, some 3, "e"⟩).1
    (by decide)).1

/-- Claim C5: on any statement and column, `getString` on a null text
pointer returns the empty string and `getBlob` on a null blob pointer
returns the empty byte sequence; both return normally (no throw, no
assert) and neither result is read through the null pointer. -/
theorem null_column_gives_empty (stmt : sqlite.Statement) (c : Int) (n : Nat) :
    (sqlite.Statement.getString stmt c none).1 = OpResult.ok "" ∧
    (sqlite.Statement.getBlob stmt c n none).1 = OpResult.ok [] := by
  exact ⟨rfl, rfl⟩

/-- Claim C6, counterexample: `Statement::reset()` on a statement whose
compiled handle is absent does not assert and does not fail — with the
status the native call actually returns for a null statement pointer
(`SQLITE_OK`) it returns normally, handing the null pointer to the native
call; likewise `Connection::lastRowId()` on a connection whose handle is
absent performs no check and hands the null session pointer to
`sqlite3_last_insert_rowid`, returning normally. -/
theorem reset_lastRowId_no_absent_check :
    (sqlite.Statement.reset ⟨none⟩ ⟨0, "m"⟩).1 = OpResult.ok () ∧
    (sqlite.Statement.reset ⟨none⟩ ⟨0, "m"⟩).2.2 =
      [NativeCall.resetStmt none] ∧
    (sqlite.Connection.lastRowId ⟨none⟩ 42).1 = OpResult.ok 42 ∧
    (sqlite.Connection.lastRowId ⟨none⟩ 42).2.2 =
      [NativeCall.lastInsertRowid none] := by
  decide

/-- Claim C6, amended: `execute`, the three `bind` overloads and `step`
assert (fail loudly) when their owned handle is absent, but `reset()` and
`lastRowId()` perform no handle check: each passes the absent (null)
handle straight to its native call, and returns normally whenever that
native call reports success — they do not fail on an absent handle. -/
theorem absent_handle_checks (s t : String) (o : NativeStatus) (i v r : Int) :
    (sqlite.Connection.execute ⟨none⟩ s o).1 = OpResult.assertFailed ∧
    (sqlite.Statement.bindInt ⟨none⟩ i v o).1 = OpResult.assertFailed ∧
    (sqlite.Statement.bindInt64 ⟨none⟩ i v o).1 = OpResult.assertFailed ∧
    (sqlite.Statement.bindText ⟨none⟩ i t o).1 = OpResult.assertFailed ∧
    (sqlite.Statement.step ⟨none⟩ o).1 = OpResult.assertFailed ∧
    (sqlite.Statement.reset ⟨none⟩ ⟨SQLITE_OK, s⟩).1 = OpResult.ok () ∧
    (sqlite.Statement.reset ⟨none⟩ o).2.2.head? =
      some (NativeCall.resetStmt none) ∧
    (sqlite.Connection.lastRowId ⟨none⟩ r).1 = OpResult.ok r ∧
    (sqlite.Connection.lastRowId ⟨none⟩ r).2.2 =
      [NativeCall.lastInsertRowid none] := by
  refine ⟨rfl, rfl, rfl, rfl, rfl, ?_, ?_, rfl, rfl⟩
  · simp [sqlite.Statement.reset, SQLITE_OK]
  · simp only [sqlite.Statement.reset]
    split <;> rfl

/-- Claim C7: when the native open reports non-success and produced a raw
handle, `Connection::open` issues exactly one `sqlite3_close` on that
handle, and the full native-call trace of the failing open is: the open,
the diagnostic read on the raw handle, then the close — so the release
happens before the failure reaches the caller and no native resource is
leaked. -/
theorem open_failure_releases_once (conn : sqlite.Connection) (f : String)
    (o : OpenOutcome) (h : Handle) (hfail : o.status ≠ SQLITE_OK)
    (hraw : o.rawConnection = some h) :
    ((sqlite.Connection.«open» conn f o).2.2.count (NativeCall.closeDb h)) = 1 ∧
    (sqlite.Connection.«open» conn f o).2.2 =
      [NativeCall.openDb f, NativeCall.errmsgDb (some h),
       NativeCall.closeDb h] ∧
    (sqlite.Connection.«open» conn f o).1 =
      OpResult.thrown ⟨o.status, o.errMsg⟩ := by
  refine ⟨?_, ?_, ?_⟩ <;>
    simp [sqlite.Connection.«open», hfail, hraw, List.count_cons,
      List.count_singleton]

/-- Witness for claim C7 at a concrete failing open (status 1, raw handle
7) on a fresh Connection. -/
theorem open_failure_releases_once_witness :
    ((sqlite.Connection.«open» ⟨none⟩ "db" ⟨1, some 7, "e"⟩).2.2.count
      (NativeCall.closeDb 7)) = 1 :=
  (open_failure_releases_once ⟨none⟩ "db" ⟨1, some 7, "e"⟩ 7
    (by decide) rfl).1

/-- Claim C8: `Statement::getBlob` issues exactly two native calls, the
byte-length query `sqlite3_column_bytes` strictly before the pointer
query `sqlite3_column_blob`; and when the pointer is non-null the
returned byte sequence has exactly the previously-read length. -/
theorem getBlob_length_before_pointer (stmt : sqlite.Statement) (c : Int)
    (n : Nat) (dataPtr : Option (Nat → Nat)) :
    (sqlite.Statement.getBlob stmt c n dataPtr).2.2 =
      [NativeCall.columnBytes stmt.m_stmt c,
       NativeCall.columnBlob stmt.m_stmt c] ∧
    (∀ f, dataPtr = some f →
      (sqlite.Statement.getBlob stmt c n dataPtr).1 =
        OpResult.ok ((List.range n).map f) ∧
      ∀ bs, (sqlite.Statement.getBlob stmt c n dataPtr).1 = OpResult.ok bs →
        bs.length = n) := by
  refine ⟨rfl, ?_⟩
  intro f hf
  subst hf
  refine ⟨rfl, ?_⟩
  intro bs hbs
  simp [sqlite.Statement.getBlob] at hbs
  simp [← hbs]

/-- Witness for claim C8 at a concrete statement, column 0, length 3 and a
non-null pointer whose bytes are all 9. -/
theorem getBlob_length_before_pointer_witness :
    (sqlite.Statement.getBlob ⟨some 1⟩ 0 3 (some fun _ => 9)).1 =
      OpResult.ok ((List.range 3).map fun _ => 9) :=
  ((getBlob_length_before_pointer ⟨some 1⟩ 0 3 (some fun _ => 9)).2
    (fun _ => 9) rfl).1

/-- Claim C9: a failed `Statement::prepare` leaves the statement's member
exactly as it was — in particular a previously-held compiled handle is
neither discarded nor replaced. -/
theorem prepare_failure_preserves_handle (stmt : sqlite.Statement)
    (conn : sqlite.Connection) (s : String) (o : PrepareOutcome)
    (hfail : o.status ≠ SQLITE_OK) :
    (sqlite.Statement.prepare stmt conn s o).2.1 = stmt := by
  simp [sqlite.Statement.prepare, hfail]

/-- Witness for claim C9 at a concrete statement holding handle 2 and a
concrete failing prepare (status 1). -/
theorem prepare_failure_preserves_handle_witness :
    (sqlite.Statement.prepare ⟨some 2⟩ ⟨some 1⟩ "sql" ⟨1, some 3, "e"⟩).2.1 =
      (⟨some 2⟩ : sqlite.Statement) :=
  prepare_failure_preserves_handle ⟨some 2⟩ ⟨some 1⟩ "sql" ⟨1, some 3, "e"⟩
    (by decide)

/-- Claim C10: `execute`, the three `bind` overloads, `step`, `reset` and
the column getters (`getInt`, `getInt64`, `getString`, `getBlob`) return
the wrapper object with its owned handle member unchanged, on every
outcome (success, thrown failure, or failed assert); only `open` and
`prepare` can install a different handle. -/
theorem handle_frame (conn : sqlite.Connection) (stmt : sqlite.Statement)
    (s t : String) (o : NativeStatus) (i v c r : Int) (n : Nat)
    (strPtr : Option String) (dataPtr : Option (Nat → Nat)) :
    (sqlite.Connection.execute conn s o).2.1 = conn ∧
    (sqlite.Connection.lastRowId conn r).2.1 = conn ∧
    (sqlite.Statement.bindInt stmt i v o).2.1 = stmt ∧
    (sqlite.Statement.bindInt64 stmt i v o).2.1 = stmt ∧
    (sqlite.Statement.bindText stmt i t o).2.1 = stmt ∧
    (sqlite.Statement.step stmt o).2.1 = stmt ∧
    (sqlite.Statement.reset stmt o).2.1 = stmt ∧
    (sqlite.Statement.getInt stmt c v).2.1 = stmt ∧
    (sqlite.Statement.getInt64 stmt c v).2.1 = stmt ∧
    (sqlite.Statement.getString stmt c strPtr).2.1 = stmt ∧
    (sqlite.Statement.getBlob stmt c n dataPtr).2.1 = stmt := by
  obtain ⟨mdb⟩ := conn
  obtain ⟨mstmt⟩ := stmt
  refine ⟨?_, rfl, ?_, ?_, ?_, ?_, ?_, rfl, rfl, rfl, rfl⟩ <;>
    cases mdb <;> cases mstmt <;>
    by_cases hok : o.status = SQLITE_OK <;>
    by_cases hr : o.status = SQLITE_ROW <;>
    by_cases hd : o.status = SQLITE_DONE <;>
    simp [sqlite.Connection.execute, sqlite.Statement.bindInt,
      sqlite.Statement.bindInt64, sqlite.Statement.bindText,
      sqlite.Statement.step, sqlite.Statement.reset, hok, hr, hd,
      SQLITE_OK, SQLITE_ROW, SQLITE_DONE]
  all_goals repeat' split
  all_goals rfl
